import Mathlib

/-!
Verification of the M18 charger serial-protocol client (`new_m18.py`).

The module is embedded shallowly:

* `bytearray` values become `List Nat` (each element a byte value 0–255;
  hypotheses state the bound where a property needs it).
* The serial transport is modelled by an explicit input stream `List Nat`
  of raw (wire) bytes still to be delivered; `port.read(n)` returns up to
  `n` bytes, i.e. `List.take n` of the stream.  A stream shorter than `n`
  models a read timeout delivering fewer bytes.
* Raising an exception becomes returning `Except.error`.
* Python attribute semantics for the print flags: `M18.PRINT_TX` etc. are
  class attributes; an assignment `self.PRINT_TX = v` stores an *instance*
  attribute on `self` only, and a read `self.PRINT_TX` returns the instance
  attribute when present, falling back to the class attribute.  The class
  attributes are never assigned anywhere in the module, so they are carried
  as an immutable `M18Class` record, and each instance carries an
  `Option Bool` per flag (`none` = no instance attribute stored yet).
-/

/-- `DataType` enumeration from the source: data types for battery data
fields (pure tags). -/
inductive DataType where
  | UINT
  | DATE
  | ASCII
  | SN
  | ADC_T
  | DEC_T
  | CELL_V
  | HHMMSS
deriving DecidableEq

/-- `DataField` dataclass from the source: address, length, data type and
description of one battery data field. -/
structure DataField where
  address : Nat
  length : Nat
  data_type : DataType
  description : String

/-- `DataField.addr_h`: `(self.address >> 8) & 0xFF`. -/
def DataField.addr_h (self : DataField) : Nat :=
  (self.address >>> 8) &&& 0xFF

/-- `DataField.addr_l`: `self.address & 0xFF`. -/
def DataField.addr_l (self : DataField) : Nat :=
  self.address &&& 0xFF

/-- Class attributes of `M18` that the print-flag methods touch.  The module
never assigns to them at class level, so they are a fixed record; their
values in the source are all `False`, captured by `classDefaults` below. -/
structure M18Class where
  PRINT_TX : Bool
  PRINT_RX : Bool
  PRINT_TX_SAVE : Bool
  PRINT_RX_SAVE : Bool

/-- The class-attribute values written in the `M18` class body:
`PRINT_TX = False`, `PRINT_RX = False`, `PRINT_TX_SAVE = False`,
`PRINT_RX_SAVE = False`. -/
def classDefaults : M18Class :=
  ⟨false, false, false, false⟩

/-- Per-instance attribute storage for the four flags.  `none` means the
instance has never assigned that attribute, so a read falls back to the
class attribute (Python attribute lookup). -/
structure M18Instance where
  PRINT_TX : Option Bool
  PRINT_RX : Option Bool
  PRINT_TX_SAVE : Option Bool
  PRINT_RX_SAVE : Option Bool

/-- A freshly constructed `M18` instance: `__init__` assigns none of the
four flag attributes, so all instance slots are empty. -/
def freshInstance : M18Instance :=
  ⟨none, none, none, none⟩

/-- Python read of `self.PRINT_TX`: instance attribute if stored, else the
class attribute. -/
def getPRINT_TX (cls : M18Class) (self : M18Instance) : Bool :=
  self.PRINT_TX.getD cls.PRINT_TX

/-- Python read of `self.PRINT_RX`. -/
def getPRINT_RX (cls : M18Class) (self : M18Instance) : Bool :=
  self.PRINT_RX.getD cls.PRINT_RX

/-- Python read of `self.PRINT_TX_SAVE`. -/
def getPRINT_TX_SAVE (cls : M18Class) (self : M18Instance) : Bool :=
  self.PRINT_TX_SAVE.getD cls.PRINT_TX_SAVE

/-- Python read of `self.PRINT_RX_SAVE`. -/
def getPRINT_RX_SAVE (cls : M18Class) (self : M18Instance) : Bool :=
  self.PRINT_RX_SAVE.getD cls.PRINT_RX_SAVE

/-- `M18.set_txrx_print`: `self.PRINT_TX = enable; self.PRINT_RX = enable`.
Assignment through `self` stores instance attributes on the calling
instance; the class attributes and every other instance are untouched. -/
def set_txrx_print (self : M18Instance) (enable : Bool) : M18Instance :=
  { self with PRINT_TX := some enable, PRINT_RX := some enable }

/-- `M18.save_and_set_txrx`: `self.PRINT_TX_SAVE = self.PRINT_TX;
self.PRINT_RX_SAVE = self.PRINT_RX; self.set_txrx_print(enable)`.  The
reads on the right-hand sides go through Python attribute lookup, hence the
`cls` parameter. -/
def save_and_set_txrx (cls : M18Class) (self : M18Instance) (enable : Bool) :
    M18Instance :=
  set_txrx_print
    { self with
        PRINT_TX_SAVE := some (getPRINT_TX cls self),
        PRINT_RX_SAVE := some (getPRINT_RX cls self) }
    enable

/-- `M18.restore_txrx`: `self.PRINT_TX = self.PRINT_TX_SAVE;
self.PRINT_RX = self.PRINT_RX_SAVE`. -/
def restore_txrx (cls : M18Class) (self : M18Instance) : M18Instance :=
  { self with
      PRINT_TX := some (getPRINT_TX_SAVE cls self),
      PRINT_RX := some (getPRINT_RX_SAVE cls self) }

/-- `M18.calculate_checksum`: `checksum = 0; for byte in payload:
checksum += byte & 0xFFFF; return checksum`.  No truncation of the
accumulator; the per-byte mask is kept exactly as written. -/
def calculate_checksum (payload : List Nat) : Nat :=
  payload.foldl (fun checksum byte => checksum + (byte &&& 0xFFFF)) 0

/-- Python `struct.pack(">H", n)` for a nonnegative `n`: two big-endian
bytes of `n` when `0 <= n <= 65535`; for larger `n`, Python 3 struct raises
`struct.error` (it does not truncate). -/
def struct_pack_gtH (n : Nat) : Except String (List Nat) :=
  if n ≤ 0xFFFF then Except.ok [n / 256, n % 256]
  else Except.error "H format requires 0 <= number <= 65535"

/-- `M18.add_checksum`: `lsb_command += struct.pack(">H",
self.calculate_checksum(lsb_command)); return lsb_command`.  `+=` on a
bytearray extends it in place, so the returned list is also the content of
the caller's buffer after the call; when `struct.pack` raises, the `+=`
never executes and the exception propagates. -/
def add_checksum (lsb_command : List Nat) : Except String (List Nat) :=
  match struct_pack_gtH (calculate_checksum lsb_command) with
  | Except.ok packed => Except.ok (lsb_command ++ packed)
  | Except.error e => Except.error e

/-- Modelled from the spec: `M18.reverse_bits` is called by `_send` and
`read_response` but has no definition in the visible source.  Spec §4.4:
"bit 0 of the logical byte becomes bit 7 of the wire byte and vice versa
(a full 8-bit mirror)", i.e. bit `i` of the input becomes bit `7 - i` of
the output. -/
def reverse_bits (byte : Nat) : Nat :=
  (List.range 8).foldl (fun acc i => acc + (((byte >>> i) &&& 1) <<< (7 - i))) 0

/-- `M18._send`: resets the input buffer, bit-reverses every byte of the
message, and writes the reversed bytes to the serial port.  Modelled as the
function from the logical message to the byte sequence written on the
wire. -/
def send_raw (message : List Nat) : List Nat :=
  message.map reverse_bits

/-- `M18.send_command`: `self._send(self.add_checksum(command))`.  Result on
success: (content of the caller's `command` buffer after the call — the
checksummed frame, since `add_checksum` extends the buffer in place —,
bytes written to the wire).  When `add_checksum` raises, nothing is sent
and the buffer is unchanged. -/
def send_command (command : List Nat) : Except String (List Nat × List Nat) :=
  match add_checksum command with
  | Except.ok framed => Except.ok (framed, send_raw framed)
  | Except.error e => Except.error e

/-- `M18.read_response(size)` over an input stream of raw wire bytes:
read 1 raw byte (empty stream = transport returned no byte: raise
`ValueError("Empty response")` and stop); if it bit-reverses to `0x82`,
read up to 1 more raw byte, else read up to `size - 1` more; return every
collected raw byte bit-reversed to its logical value. -/
def read_response (stream : List Nat) (size : Nat) : Except String (List Nat) :=
  match stream with
  | [] => Except.error "Empty response"
  | b :: rest =>
      let more := if reverse_bits b = 0x82 then rest.take 1 else rest.take (size - 1)
      Except.ok ((b :: more).map reverse_bits)

/-- One pass of the `while (port_id < 1) or (port_id >= i)` loop of
`prompt_com_port_selection`, with `i = count + 1` (`count` = number of
enumerated ports).  Each element of `inputs` is the result of
`int(input(...))` for one prompt: `some v` when parsing succeeded, `none`
when it raised `ValueError` (then `port_id` keeps its previous value).
Returns `some port_id` when the loop condition fails (a valid selection),
`none` when the inputs are exhausted with the loop still spinning (the
real program would block on `input()` forever or die on EOF — it never
returns normally within these inputs). -/
def selector_loop (count : Nat) (port_id : Int) : List (Option Int) → Option Int
  | [] =>
      if port_id < 1 ∨ (count : Int) + 1 ≤ port_id then none
      else some port_id
  | inp :: rest =>
      if port_id < 1 ∨ (count : Int) + 1 ≤ port_id then
        selector_loop count (inp.getD port_id) rest
      else some port_id

/-- `prompt_com_port_selection` validation loop: `port_id` starts at 0 and
the loop runs against the given sequence of user inputs. -/
def prompt_com_port_selection (count : Nat) (inputs : List (Option Int)) :
    Option Int :=
  selector_loop count 0 inputs

set_option maxRecDepth 8192

/-! ## Helper lemmas -/

/-- A byte below 256 is unchanged by the per-byte `& 0xFFFF` mask of
`calculate_checksum`. -/
theorem and_mask16_eq_self (b : Nat) (hb : b < 256) : b &&& 0xFFFF = b := by
  have h := Nat.and_pow_two_sub_one_eq_mod b 16
  have h2 : b % 65536 = b := Nat.mod_eq_of_lt (by omega)
  calc b &&& 0xFFFF = b % 65536 := h
    _ = b := h2

/-- The checksum fold over a list of bytes adds the plain sum of the list
to the accumulator. -/
theorem checksum_foldl_eq_sum (payload : List Nat) (h : ∀ b ∈ payload, b < 256) :
    ∀ acc : Nat,
      payload.foldl (fun checksum byte => checksum + (byte &&& 0xFFFF)) acc =
        acc + payload.sum := by
  induction payload with
  | nil => intro acc; simp
  | cons b t ih =>
      intro acc
      have hb : b &&& 0xFFFF = b := and_mask16_eq_self b (h b (by simp))
      have ht := ih (fun x hx => h x (by simp [hx]))
      simp only [List.foldl_cons, hb, ht, List.sum_cons]
      omega

/-- With zero ports enumerated the guard `(port_id < 1) or (port_id >= 1)`
holds for every integer, so the selection loop consumes every input and
never exits. -/
theorem selector_loop_zero_none (inputs : List (Option Int)) :
    ∀ port_id : Int, selector_loop 0 port_id inputs = none := by
  induction inputs with
  | nil =>
      intro pid
      simp only [selector_loop]
      split
      · rfl
      · exfalso; omega
  | cons inp rest ih =>
      intro pid
      simp only [selector_loop]
      split
      · exact ih _
      · exfalso; omega

/-! ## Claims -/

/-- C7: for every payload of bytes, `calculate_checksum` returns the exact
untruncated sum of the byte values (the accumulator may exceed 16 bits);
in particular it returns 0 for the empty payload, 1 for `[0x01]`, 510 for
`[0xFF, 0xFF]`, and 65790 (which exceeds 16 bits) for 258 bytes of
`0xFF`. -/
theorem calculate_checksum_exact_sum (payload : List Nat)
    (h : ∀ b ∈ payload, b < 256) :
    calculate_checksum payload = payload.sum ∧
    calculate_checksum [] = 0 ∧
    calculate_checksum [0x01] = 1 ∧
    calculate_checksum [0xFF, 0xFF] = 510 ∧
    calculate_checksum (List.replicate 258 0xFF) = 65790 := by
  refine ⟨?_, rfl, rfl, rfl, rfl⟩
  simpa using checksum_foldl_eq_sum payload h 0

/-- Witness for C7 at the payload `[0xFF, 0xFF]` from the claim. -/
theorem calculate_checksum_exact_sum_witness :
    calculate_checksum [0xFF, 0xFF] = [0xFF, 0xFF].sum :=
  (calculate_checksum_exact_sum [0xFF, 0xFF] (by decide)).1

/-- C4 counterexample: for 258 bytes of `0xFF` the byte sum is 65790,
which exceeds 65535, and `add_checksum` does not append any 2-byte
truncated checksum — `struct.pack(">H", ...)` raises, so the call fails
instead of producing the extended sequence the claim promises. -/
theorem add_checksum_overflow_cex :
    add_checksum (List.replicate 258 0xFF) =
      Except.error "H format requires 0 <= number <= 65535" ∧
    calculate_checksum (List.replicate 258 0xFF) = 65790 := by
  exact ⟨rfl, rfl⟩

/-- C4 (amended): when the byte sum is at most 65535, `add_checksum`
returns the original command bytes unmodified in position and order
followed by exactly 2 appended big-endian bytes of the sum (on which
`mod 65536` is the identity); when the sum exceeds 65535, `add_checksum`
raises `struct.error` rather than truncating. -/
theorem add_checksum_amended (command : List Nat) :
    (calculate_checksum command ≤ 65535 →
      add_checksum command =
        Except.ok (command ++
          [calculate_checksum command % 65536 / 256,
           calculate_checksum command % 65536 % 256])) ∧
    (65535 < calculate_checksum command →
      add_checksum command =
        Except.error "H format requires 0 <= number <= 65535") := by
  constructor
  · intro h
    have hm : calculate_checksum command % 65536 = calculate_checksum command :=
      Nat.mod_eq_of_lt (by omega)
    rw [hm]
    simp only [add_checksum, struct_pack_gtH, if_pos h]
  · intro h
    simp only [add_checksum, struct_pack_gtH, if_neg (by omega : ¬ calculate_checksum command ≤ 0xFFFF)]

/-- Witness for C4 (amended) at the keepalive command `[0x62]`. -/
theorem add_checksum_amended_witness :
    add_checksum [0x62] = Except.ok [0x62, 0x00, 0x62] := by
  have h := (add_checksum_amended [0x62]).1 (by decide)
  have hc : calculate_checksum [0x62] = 98 := rfl
  rw [hc] at h
  rw [h]
  norm_num

/-- C5: `add_checksum` extends its argument buffer in place (Python `+=` on
a bytearray) and returns that same buffer, now the original bytes followed
by the 2 checksum bytes; so after `send_command(command)` returns, the
caller's buffer holds the checksummed frame, and passing that buffer to
`send_command` a second time checksums the already-extended frame (the sum
now includes the first checksum bytes).  In the embedding, in-place
mutation is state passing: the first component of `send_command`'s result
is the content of the caller's buffer after the call. -/
theorem send_command_buffer_in_place (command : List Nat)
    (h1 : calculate_checksum command ≤ 65535)
    (h2 : calculate_checksum (command ++
            [calculate_checksum command / 256, calculate_checksum command % 256]) ≤ 65535) :
    ∃ buf, add_checksum command = Except.ok buf ∧
      buf = command ++ [calculate_checksum command / 256, calculate_checksum command % 256] ∧
      send_command command = Except.ok (buf, send_raw buf) ∧
      send_command buf =
        Except.ok (buf ++ [calculate_checksum buf / 256, calculate_checksum buf % 256],
          send_raw (buf ++ [calculate_checksum buf / 256, calculate_checksum buf % 256])) := by
  have ha : add_checksum command =
      Except.ok (command ++ [calculate_checksum command / 256, calculate_checksum command % 256]) := by
    simp only [add_checksum, struct_pack_gtH, if_pos (by omega : calculate_checksum command ≤ 0xFFFF)]
  refine ⟨_, ha, rfl, ?_, ?_⟩
  · simp only [send_command, ha]
  · have hb : add_checksum (command ++
        [calculate_checksum command / 256, calculate_checksum command % 256]) =
        Except.ok ((command ++ [calculate_checksum command / 256, calculate_checksum command % 256]) ++
          [calculate_checksum (command ++
              [calculate_checksum command / 256, calculate_checksum command % 256]) / 256,
           calculate_checksum (command ++
              [calculate_checksum command / 256, calculate_checksum command % 256]) % 256]) := by
      simp only [add_checksum, struct_pack_gtH, if_pos (by omega :
        calculate_checksum (command ++
          [calculate_checksum command / 256, calculate_checksum command % 256]) ≤ 0xFFFF)]
    simp only [send_command, hb]

/-- Witness for C5 at the keepalive command `[0x62]`: the buffer after the
first call is `[0x62, 0x00, 0x62]`, and a second call on that buffer frames
it with checksum 0x00C4 = 98 + 0 + 98. -/
theorem send_command_buffer_in_place_witness :
    ∃ buf, add_checksum [0x62] = Except.ok buf ∧
      buf = [0x62, 0x00, 0x62] ∧
      send_command [0x62] = Except.ok (buf, send_raw buf) ∧
      send_command buf =
        Except.ok (buf ++ [0x00, 0xC4], send_raw (buf ++ [0x00, 0xC4])) := by
  obtain ⟨buf, ha, hb, hc, hd⟩ := send_command_buffer_in_place [0x62] (by decide) (by decide)
  have he : calculate_checksum [0x62] = 98 := rfl
  rw [he] at hb
  norm_num at hb
  have hf : calculate_checksum buf = 196 := by rw [hb]; rfl
  rw [hf] at hd
  norm_num at hd
  exact ⟨buf, ha, hb, hc, hd⟩

/-- C8: sending the keepalive command `[0x62]` produces the logical
checksummed frame `[0x62, 0x00, 0x62]`, and the bytes written to the
serial transport are the bit-reversal of each of those three logical bytes
(concretely `[0x46, 0x00, 0x46]`).  `reverse_bits` is modelled from the
spec, being absent from the visible source. -/
theorem send_command_keepalive :
    send_command [0x62] =
      Except.ok ([0x62, 0x00, 0x62], List.map reverse_bits [0x62, 0x00, 0x62]) ∧
    List.map reverse_bits [0x62, 0x00, 0x62] = [0x46, 0x00, 0x46] := by
  exact ⟨rfl, rfl⟩

/-- C1 counterexample: for requested size 0 and a non-sentinel first byte
(raw `0x00` bit-reverses to logical `0x00 ≠ 0x82`), `read_response`
returns a 1-byte result, not the "exactly `size` = 0 logical bytes" the
claim states: the first byte is already read before `size` is consulted,
and `port.read(size - 1)` = `port.read(-1)` returns nothing. -/
theorem read_response_size_zero_cex :
    read_response [0x00] 0 = Except.ok [0x00] ∧ reverse_bits 0x00 ≠ 0x82 := by
  exact ⟨rfl, by decide⟩

/-- C1 (amended): provided the transport delivers the bytes that are
requested (the stream holds at least 1 further byte in the sentinel case,
and at least `size - 1` further bytes otherwise), the length of the result
is determined by the first byte: logical `0x82` gives exactly 2 logical
bytes regardless of `size`; otherwise, for every requested `size ≥ 1`,
exactly `size` logical bytes (at `size = 0` the result is 1 byte, the
first byte already read). -/
theorem read_response_length_amended (size b : Nat) (rest : List Nat) :
    (reverse_bits b = 0x82 → 1 ≤ rest.length →
      ∃ r, read_response (b :: rest) size = Except.ok r ∧ r.length = 2) ∧
    (reverse_bits b ≠ 0x82 → 1 ≤ size → size - 1 ≤ rest.length →
      ∃ r, read_response (b :: rest) size = Except.ok r ∧ r.length = size) := by
  constructor
  · intro hb hr
    refine ⟨_, rfl, ?_⟩
    simp only [read_response, hb, if_true, List.map_cons, List.length_cons,
      List.length_map, List.length_take]
    omega
  · intro hb hs hr
    refine ⟨_, rfl, ?_⟩
    simp only [read_response, hb, if_false, List.map_cons, List.length_cons,
      List.length_map, List.length_take]
    omega


/-- Witness for C1 (amended): raw first byte `0x41` bit-reverses to the
sentinel `0x82`, so `size = 10` still yields 2 logical bytes; raw first
byte `0x00` is not the sentinel, so `size = 3` yields 3 logical bytes. -/
theorem read_response_length_amended_witness :
    (∃ r, read_response [0x41, 0x05, 0x06] 10 = Except.ok r ∧ r.length = 2) ∧
    (∃ r, read_response [0x00, 0x05, 0x06] 3 = Except.ok r ∧ r.length = 3) :=
  ⟨(read_response_length_amended 10 0x41 [0x05, 0x06]).1 (by decide) (by decide),
   (read_response_length_amended 3 0x00 [0x05, 0x06]).2 (by decide) (by decide) (by decide)⟩

/-- C3: when the serial transport yields zero bytes for the first byte of
a response (empty stream), `read_response` raises the EmptyResponse error
(`ValueError("Empty response")`) immediately — the error branch returns
before any further read of the transport — and whenever the first read
yields a byte, the error is never raised (the call returns `ok`). -/
theorem read_response_empty_first_read (size : Nat) :
    read_response [] size = Except.error "Empty response" ∧
    ∀ b rest, ∃ r, read_response (b :: rest) size = Except.ok r :=
  ⟨rfl, fun _ _ => ⟨_, rfl⟩⟩

/-- C6: with zero serial ports enumerated, the loop bound is `i = 1` and
the guard `(port_id < 1) or (port_id >= 1)` holds for every integer, so no
parsed selection can exit the validation loop: for every sequence of user
inputs (each `some v` for a parsed number, `none` for a rejected
non-numeric entry), the selector never returns normally. -/
theorem prompt_com_port_selection_zero_ports (inputs : List (Option Int)) :
    prompt_com_port_selection 0 inputs = none ∧
    ∀ port_id : Int, port_id < 1 ∨ port_id ≥ 1 :=
  ⟨selector_loop_zero_none inputs 0, fun _ => by omega⟩

/-- C2 counterexample: with the class attributes at their source values
(all `False`) and two freshly constructed instances, one instance calling
`set_txrx_print(True)` sets only its own instance attributes — Python
attribute assignment through `self` never rebinds the class attribute, and
the class attribute is assigned nowhere in the module — so the other
instance still reads `PRINT_TX = PRINT_RX = False`, not `True` as the
claim of process-wide sharing requires. -/
theorem set_txrx_print_not_shared_cex :
    getPRINT_TX classDefaults (set_txrx_print freshInstance true) = true ∧
    getPRINT_RX classDefaults (set_txrx_print freshInstance true) = true ∧
    getPRINT_TX classDefaults freshInstance = false ∧
    getPRINT_RX classDefaults freshInstance = false :=
  ⟨rfl, rfl, rfl, rfl⟩

/-- C2 (amended): the flags are per-instance once written: after an
instance calls `set_txrx_print(enable)`, that instance reads `enable` on
both flags, while any instance that has not stored its own flag attributes
keeps reading the (never-reassigned) class attributes, regardless of other
instances' toggles. -/
theorem set_txrx_print_instance_local (cls : M18Class)
    (self other : M18Instance) (enable : Bool) :
    getPRINT_TX cls (set_txrx_print self enable) = enable ∧
    getPRINT_RX cls (set_txrx_print self enable) = enable ∧
    (other.PRINT_TX = none → getPRINT_TX cls other = cls.PRINT_TX) ∧
    (other.PRINT_RX = none → getPRINT_RX cls other = cls.PRINT_RX) :=
  ⟨rfl, rfl,
   fun h => by simp [getPRINT_TX, h],
   fun h => by simp [getPRINT_RX, h]⟩

/-- Witness for C2 (amended) at the class defaults and fresh instances. -/
theorem set_txrx_print_instance_local_witness :
    getPRINT_TX classDefaults (set_txrx_print freshInstance false) = false ∧
    getPRINT_RX classDefaults (set_txrx_print freshInstance false) = false ∧
    getPRINT_TX classDefaults freshInstance = classDefaults.PRINT_TX ∧
    getPRINT_RX classDefaults freshInstance = classDefaults.PRINT_RX := by
  obtain ⟨h1, h2, h3, h4⟩ :=
    set_txrx_print_instance_local classDefaults freshInstance freshInstance false
  exact ⟨h1, h2, h3 rfl, h4 rfl⟩

/-- C10: on a single instance, `save_and_set_txrx(True)` followed by
`restore_txrx()` is a round trip for every starting flag state: after the
save-and-set both flags read `True`, and after the restore both flags read
their pre-save values; in particular, starting from the source defaults
(TX = RX = False) on a fresh instance, the final reads are False again. -/
theorem save_and_set_restore_roundtrip (cls : M18Class) (self : M18Instance) :
    getPRINT_TX cls (save_and_set_txrx cls self true) = true ∧
    getPRINT_RX cls (save_and_set_txrx cls self true) = true ∧
    getPRINT_TX cls (restore_txrx cls (save_and_set_txrx cls self true)) =
      getPRINT_TX cls self ∧
    getPRINT_RX cls (restore_txrx cls (save_and_set_txrx cls self true)) =
      getPRINT_RX cls self ∧
    getPRINT_TX classDefaults
      (restore_txrx classDefaults (save_and_set_txrx classDefaults freshInstance true)) = false ∧
    getPRINT_RX classDefaults
      (restore_txrx classDefaults (save_and_set_txrx classDefaults freshInstance true)) = false := by
  refine ⟨rfl, rfl, ?_, ?_, rfl, rfl⟩ <;>
    simp [save_and_set_txrx, set_txrx_print, restore_txrx,
      getPRINT_TX, getPRINT_RX, getPRINT_TX_SAVE, getPRINT_RX_SAVE]

/-- C9: for every `DataField` whose address is in 0–65535, the derived
bytes recompose the address: `addr_h * 256 + addr_l = address`; in
particular address `0x1234` gives `addr_h = 0x12`, `addr_l = 0x34`, and
address `0x00FF` gives `addr_h = 0x00`, `addr_l = 0xFF`. -/
theorem addr_decompose (f : DataField) (h : f.address ≤ 65535) :
    f.addr_h * 256 + f.addr_l = f.address ∧
    (DataField.mk 0x1234 2 DataType.UINT "x").addr_h = 0x12 ∧
    (DataField.mk 0x1234 2 DataType.UINT "x").addr_l = 0x34 ∧
    (DataField.mk 0x00FF 1 DataType.UINT "x").addr_h = 0x00 ∧
    (DataField.mk 0x00FF 1 DataType.UINT "x").addr_l = 0xFF := by
  refine ⟨?_, by decide, by decide, by decide, by decide⟩
  have h3 : f.address >>> 8 = f.address / 256 :=
    Nat.shiftRight_eq_div_pow f.address 8
  have h1 : f.address &&& 255 = f.address % 256 :=
    Nat.and_pow_two_sub_one_eq_mod f.address 8
  have h2 : (f.address / 256) &&& 255 = (f.address / 256) % 256 :=
    Nat.and_pow_two_sub_one_eq_mod (f.address / 256) 8
  simp only [DataField.addr_h, DataField.addr_l, h3, h1, h2]
  omega

/-- Witness for C9 at the address `0x1234` from the claim. -/
theorem addr_decompose_witness :
    (DataField.mk 0x1234 2 DataType.UINT "x").addr_h * 256 +
      (DataField.mk 0x1234 2 DataType.UINT "x").addr_l = 0x1234 :=
  (addr_decompose (DataField.mk 0x1234 2 DataType.UINT "x") (by decide)).1
